import Mathlib

/-!
Verification of the `Firewall` device model (`pandevice/firewall.py`).

The Python class `Firewall` specializes a generic configuration-tree node
(`PanDevice`, defined in a base module outside this excerpt).  We embed the
methods of `Firewall` as pure Lean functions over an explicit `Firewall`
state record.  Transport calls (`self.xapi.set`, `self.xapi.delete`,
`self.xapi.op`, ...) are modelled as an emitted list of `XapiOp` events;
Python exceptions are modelled with an `Option PanErr` component so that
mutations performed before a raise remain visible in the returned state,
exactly as they do in Python.
-/

set_option autoImplicit false

namespace Pandevice

/-- Errors raised by the module: `err.PanDeviceError` and Python's built-in
`TypeError` (raised by `add_interface`). -/
inductive PanErr : Type where
  | panDeviceError (msg : String)
  | typeError (msg : String)
  deriving DecidableEq, Repr

/-- One transport-level call observed during a method.  `set`, `delete`,
`get` and `opCmd` mirror `self.xapi.set / delete / get / op`.
`ifaceApply name` and `ifaceDelete name` record the calls
`pan_interface.apply()` and `pan_interface.delete()` whose body lives in the
network module outside this excerpt; only the fact of the call is modelled. -/
inductive XapiOp : Type where
  | set (xpath : String) (element : String)
  | delete (xpath : String)
  | get (xpath : String)
  | opCmd (cmd : Option String) (vsys : String) (cmd_xml : Bool) (extra_qs : Option String)
  | ifaceApply (name : String)
  | ifaceDelete (name : String)
  deriving DecidableEq, Repr

/-- An opaque parsed XML document root (`self.xapi.element_root`). -/
structure XmlElement : Type where
  tag : String
  deriving DecidableEq, Repr

/-- The fields of a Panorama management node that `Firewall.generate_xapi`
reads: `panorama.api_key`, `panorama.hostname`, `panorama.port`. -/
structure Panorama : Type where
  api_key : Option String
  hostname : Option String
  port : Nat
  deriving DecidableEq, Repr

/-- A `network.Interface` object as used by this file: `name`, `parent`,
`subinterfaces`, and the attributes `refresh_interfaces` constructs it with
(`zone`, `router`, `subnets`, `state`).  The interface class itself lives in
the network module outside this excerpt; the fields here are the ones this
file reads or writes. -/
inductive Interface : Type where
  | mk (name : String) (parent : Option Interface) (subinterfaces : List Interface)
       (zone : Option String) (router : Option String)
       (subnets : List String) (state : Option String)

def Interface.name : Interface → String
  | .mk n _ _ _ _ _ _ => n

def Interface.parent : Interface → Option Interface
  | .mk _ p _ _ _ _ _ => p

def Interface.subinterfaces : Interface → List Interface
  | .mk _ _ s _ _ _ _ => s

def Interface.zone : Interface → Option String
  | .mk _ _ _ z _ _ _ => z

def Interface.router : Interface → Option String
  | .mk _ _ _ _ r _ _ => r

def Interface.subnets : Interface → List String
  | .mk _ _ _ _ _ s _ => s

def Interface.state : Interface → Option String
  | .mk _ _ _ _ _ _ st => st

/-- Python `s.startswith(pre)`, as a prefix test on the character lists of
the two strings. -/
def strStartsWith (s pre : String) : Bool :=
  pre.data.isPrefixOf s.data

/-- Python `dict` lookup (`d[k]` / `d.get(k)`) over an association list. -/
def dlookup {α : Type} : List (String × α) → String → Option α
  | [], _ => none
  | (k2, v) :: rest, k => if k2 == k then some v else dlookup rest k

/-- Python `dict` assignment `d[k] = v`: replaces the binding in place when
the key is present, appends otherwise. -/
def dinsert {α : Type} : List (String × α) → String → α → List (String × α)
  | [], k, v => [(k, v)]
  | (k2, w) :: rest, k, v =>
      if k2 == k then (k, v) :: rest else (k2, w) :: dinsert rest k v

/-- Python `d.pop(k, None)`: removes the binding when present, otherwise
leaves the dict unchanged. -/
def dpop {α : Type} : List (String × α) → String → List (String × α)
  | [], _ => []
  | (k2, w) :: rest, k => if k2 == k then rest else (k2, w) :: dpop rest k

/-- The `Firewall` state.  `hostname`, `port`, `api_key`, `timeout`,
`interfaces`, `config_changed`, `xpath` and `xpath_device` are inherited
from the `PanDevice` base class outside this excerpt: `xpath` is the
resolved XPath of this node (the base XPath Resolver's output, used as an
opaque prefix here), `xpath_device` the device-level XPath prefix, and
`config_changed` the local config-changed flag.  The remaining fields are
set by `Firewall.__init__`. -/
structure Firewall : Type where
  hostname : Option String := none
  port : Nat := 443
  api_key : Option String := none
  timeout : Nat := 120
  serial : Option String := none
  vsys : String := "vsys1"
  vsys_name : Option String := none
  panorama : Option Panorama := none
  multi_vsys : Option Bool := none
  classify_exceptions : Bool := true
  is_virtual : Option Bool := none
  interfaces : List (String × Interface) := []
  config_changed : Bool := false
  xpath : String := ""
  xpath_device : String := ""

/-- Modelled from the spec: `set_config_changed`, inherited from the base
module outside this excerpt, marks the device configuration as locally
modified (the config-changed flag of the spec's Sync Engine). -/
def set_config_changed (fw : Firewall) : Firewall :=
  { fw with config_changed := true }

/-- Result of a method call: the state after the call, the transport calls
it issued in order, and the exception it raised, if any.  Mutations made
before a raise stay visible in `state`. -/
structure Effect : Type where
  state : Firewall
  ops : List XapiOp := []
  err : Option PanErr := none

namespace Firewall

/-- Translation of `Firewall.xpath_vsys`. -/
def xpath_vsys (fw : Firewall) : String :=
  if fw.vsys == "shared" then
    "/config/shared"
  else
    "/config/devices/entry[@name=\x27localhost.localdomain\x27]/vsys/entry[@name=\x27"
      ++ fw.vsys ++ "\x27]"

/-- Translation of `Firewall.xpath_panorama`: unconditionally raises
`err.PanDeviceError`. -/
def xpath_panorama (_fw : Firewall) : Except PanErr String :=
  .error (.panDeviceError "Attempt to modify Panorama configuration on non-Panorama device")

/-- Translation of `Firewall.op`.  The transport's parsed root
`self.xapi.element_root` after the call is supplied as `element_root`;
the function returns it together with the single `op` transport call. -/
def op (fw : Firewall) (cmd : Option String) (cmd_xml : Bool)
    (extra_qs : Option String) (element_root : XmlElement) :
    XmlElement × List XapiOp :=
  let vsys := if fw.vsys == "shared" then "vsys1" else fw.vsys
  (element_root, [XapiOp.opCmd cmd vsys cmd_xml extra_qs])

/-- The transport object built by `generate_xapi`: either a connection
through Panorama (`wrapper` when `classify_exceptions` selects
`PanDevice.XapiWrapper`, `plain` when it selects `pan.xapi.PanXapi`) with
the Panorama node's credentials and `serial` as the target, or the direct
connection built by the superclass (`direct`, modelled from the spec: the
base class's `generate_xapi` lives outside this excerpt). -/
inductive Xapi : Type where
  | wrapper (api_key : Option String) (hostname : Option String)
            (port : Nat) (timeout : Nat) (serial : Option String)
  | plain (api_key : Option String) (hostname : Option String)
          (port : Nat) (timeout : Nat) (serial : Option String)
  | direct
  deriving DecidableEq, Repr

/-- Translation of `Firewall.generate_xapi`. -/
def generate_xapi (fw : Firewall) : Xapi :=
  match fw.panorama, fw.serial with
  | some p, some s =>
      if fw.classify_exceptions then
        .wrapper p.api_key p.hostname p.port fw.timeout (some s)
      else
        .plain p.api_key p.hostname p.port fw.timeout (some s)
  | _, _ => .direct

/-- Serialization `ET.tostring(element)` of the `<entry>` element built by
`Firewall.create`: an `entry` element named after the vsys, with an
optional `display-name` child. -/
def vsysEntryElement (vsys : String) (vsys_name : Option String) : String :=
  match vsys_name with
  | none => "<entry name=\"" ++ vsys ++ "\" />"
  | some dn =>
      "<entry name=\"" ++ vsys ++ "\"><display-name>" ++ dn ++ "</display-name></entry>"

/-- Translation of `Firewall.create`: pushes an empty vsys entry when
`self.vsys` starts with `"vsys"`, otherwise does nothing. -/
def create (fw : Firewall) : Effect :=
  if strStartsWith fw.vsys "vsys" then
    { state := fw
      ops := [XapiOp.set (fw.xpath_device ++ "/vsys")
                (vsysEntryElement fw.vsys fw.vsys_name)] }
  else
    { state := fw }

/-- Translation of `Firewall.delete`: deletes the vsys entry when
`self.vsys` starts with `"vsys"`, otherwise does nothing. -/
def delete (fw : Firewall) : Effect :=
  if strStartsWith fw.vsys "vsys" then
    { state := fw
      ops := [XapiOp.delete (fw.xpath_device ++ "/vsys/entry[@name=\x27"
                ++ fw.vsys ++ "\x27]")] }
  else
    { state := fw }

/-- Translation of `Firewall.add_address_object`. -/
def add_address_object (fw : Firewall) (name address description : String) : Effect :=
  let fw := set_config_changed fw
  let address_xpath := fw.xpath ++ "/address/entry[@name=\x27" ++ name ++ "\x27]"
  let element := "<ip-netmask>" ++ address ++ "</ip-netmask><description>"
                   ++ description ++ "</description>"
  { state := fw, ops := [XapiOp.set address_xpath element] }

/-- Translation of `Firewall.delete_address_object`. -/
def delete_address_object (fw : Firewall) (name : String) : Effect :=
  let fw := set_config_changed fw
  let address_xpath := fw.xpath ++ "/address/entry[@name=\x27" ++ name ++ "\x27]"
  { state := fw, ops := [XapiOp.delete address_xpath] }

/-- Argument passed to `add_interface`: either an actual `Interface`
(`issubclass(type(pan_interface), Interface)` holds) or a value of any
other type. -/
inductive IfaceArg : Type where
  | iface (i : Interface)
  | notIface

/-- Translation of `Firewall.add_interface`.  Note that
`self.set_config_changed()` runs before the type check, so the
config-changed flag is set even on the `TypeError` path. -/
def add_interface (fw : Firewall) (arg : IfaceArg) (applyFlag : Bool) : Effect :=
  let fw := set_config_changed fw
  match arg with
  | .notIface =>
      { state := fw
        err := some (.typeError "set_interface argument must be of type Interface") }
  | .iface i =>
      let fw :=
        match i.parent with
        | some parent =>
            if (dlookup fw.interfaces parent.name).isNone then
              { fw with interfaces := dinsert fw.interfaces parent.name parent }
            else fw
        | none => fw
      let fw := { fw with interfaces := dinsert fw.interfaces i.name i }
      { state := fw
        ops := if applyFlag then [XapiOp.ifaceApply i.name] else [] }

/-- Translation of `Firewall.delete_interface`.  The source pops
`pan_interface.name` from the index, then, when `delete_empty_parent` holds
and the parent has no subinterfaces, pops `pan_interface.name` a second
time (the same key, not the parent's) and deletes the parent remotely;
otherwise it deletes the interface itself remotely. -/
def delete_interface (fw : Firewall) (i : Interface) (applyFlag : Bool)
    (delete_empty_parent : Bool) : Effect :=
  let fw := set_config_changed fw
  let fw := { fw with interfaces := dpop fw.interfaces i.name }
  match i.parent with
  | some parent =>
      if delete_empty_parent && parent.subinterfaces.isEmpty then
        let fw := { fw with interfaces := dpop fw.interfaces i.name }
        { state := fw
          ops := if applyFlag then [XapiOp.ifaceDelete parent.name] else [] }
      else
        { state := fw
          ops := if applyFlag then [XapiOp.ifaceDelete i.name] else [] }
  | none =>
      { state := fw
        ops := if applyFlag then [XapiOp.ifaceDelete i.name] else [] }

end Firewall

/-- One entry of the `hw` container of the parsed `show interface "all"`
response: the loop reads `hw_entry[\x27name\x27]` and later
`hw.get(entry[\x27name\x27], \x7b\x7d).get(\x27state\x27)`. -/
structure HwEntry : Type where
  name : String
  state : Option String
  deriving DecidableEq, Repr

/-- One entry of the `ifnet` container of the parsed response: the loop
reads `entry[\x27name\x27]`, `entry[\x27zone\x27]`, `entry[\x27fwd\x27]`
and `entry[\x27ip\x27]`. -/
structure IfEntry : Type where
  name : String
  zone : String
  fwd : String
  ip : String
  deriving DecidableEq, Repr

/-- Shape of one container (`hw` or `ifnet`) inside the parsed result dict:
the key may be absent (`response.get` yields the default `\x7b\x7d`),
present but bound to `None` (`nullValue`), or a dict whose `entry` key
holds a list of entries (`entries []` models a dict without an `entry`
key, since `.get(\x27entry\x27, [])` then yields the empty list). -/
inductive Container (α : Type) : Type where
  | absent
  | nullValue
  | entries (es : List α)
  deriving DecidableEq, Repr

/-- The `entry` list extracted by `hw_result.get(\x27entry\x27, [])` once
the `None` case has been handled. -/
def Container.entryList {α : Type} : Container α → List α
  | .absent => []
  | .nullValue => []
  | .entries es => es

/-- Shape of `pconf.python()` for `refresh_interfaces` after the transport
call: `missing` when `response[\x27response\x27][\x27result\x27]` raises
`KeyError`; `empty` when the extracted result is falsy (`None` or an empty
dict); `body hw ifnet` when the result dict is truthy. -/
inductive RefreshResult : Type where
  | missing
  | empty
  | body (hw : Container HwEntry) (ifnet : Container IfEntry)

/-- Translation of `entry[\x27fwd\x27].split(\x22:\x22, 1)[1]` with the
`IndexError` fallback to `entry[\x27fwd\x27]`: the part after the first
colon, or the whole string when it has no colon. -/
def routerOf (fwd : String) : String :=
  match fwd.splitOn ":" with
  | _ :: y :: rest => String.intercalate ":" (y :: rest)
  | _ => fwd

/-- The `Interface(...)` constructed for one `ifnet` entry by
`refresh_interfaces`, given the `hw` dict built from the `hw` entries. -/
def mkInterface (hw : List (String × HwEntry)) (e : IfEntry) : Interface :=
  .mk e.name none [] (some e.zone) (some (routerOf e.fwd)) [e.ip]
      ((dlookup hw e.name).bind HwEntry.state)

namespace Firewall

/-- Translation of `Firewall.refresh_interfaces`, parameterized by the
parsed response.  The transport `op` call itself is elided (its result is
the parameter); the function returns the new state or the raised error. -/
def refresh_interfaces (fw : Firewall) (resp : RefreshResult) : Except PanErr Firewall :=
  match resp with
  | .missing =>
      .error (.panDeviceError "Error reading response while refreshing interfaces")
  | .empty =>
      .error (.panDeviceError "Could not refresh interfaces")
  | .body hwc ifc =>
      match hwc with
      | .nullValue => .ok fw
      | _ =>
          let hw := hwc.entryList.foldl (fun d e => dinsert d e.name e) []
          match ifc with
          | .nullValue => .ok fw
          | _ =>
              let interfaces :=
                ifc.entryList.foldl (fun d e => dinsert d e.name (mkInterface hw e)) []
              .ok { fw with interfaces := interfaces }

end Firewall

/-! Concrete fixtures used by witnesses and counterexamples. -/

/-- A Panorama management node with concrete credentials. -/
def panoEx : Panorama :=
  { api_key := some "LUFRPT1k", hostname := some "panorama.example.net", port := 443 }

/-- A firewall proxied through Panorama: both `panorama` and `serial` set. -/
def fwProxied : Firewall := { panorama := some panoEx, serial := some "007200001056" }

/-- A firewall whose config-changed flag is still clear. -/
def fwFlagClear : Firewall := { config_changed := false }

/-- An interface present only in the local index, absent from any remote
response used below. -/
def staleIface : Interface := .mk "ethernet1/9" none [] (some "trust") none [] none

/-- A firewall whose index holds only the stale interface. -/
def fwStale : Firewall := { interfaces := [("ethernet1/9", staleIface)] }

/-- A hardware entry of a remote refresh response. -/
def hwEntryEx : HwEntry := { name := "ethernet1/1", state := some "up" }

/-- An ifnet entry of a remote refresh response. -/
def ifEntryEx : IfEntry :=
  { name := "ethernet1/1", zone := "untrust", fwd := "vr:default", ip := "10.0.0.1/24" }

/-- A parent interface with no subinterfaces left. -/
def parentIfaceEx : Interface := .mk "ethernet1/1" none [] (some "untrust") none [] none

/-- A subinterface of `parentIfaceEx`. -/
def subIfaceEx : Interface :=
  .mk "ethernet1/1.1" (some parentIfaceEx) [] (some "untrust") none [] none

/-- A firewall indexing both the parent interface and its subinterface. -/
def fwWithSub : Firewall :=
  { interfaces := [("ethernet1/1", parentIfaceEx), ("ethernet1/1.1", subIfaceEx)] }

/-! Helper lemmas about the dict model. -/

theorem dlookup_dinsert {α : Type} (d : List (String × α)) (k n : String) (v : α) :
    dlookup (dinsert d k v) n = if k = n then some v else dlookup d n := by
  induction d with
  | nil => simp [dinsert, dlookup, beq_iff_eq]
  | cons p rest ih =>
    obtain ⟨k2, w⟩ := p
    by_cases hk : k2 = k
    · subst hk
      by_cases hn : k2 = n <;> simp [dinsert, dlookup, hn, beq_iff_eq]
    · by_cases hn : k2 = n
      · have hnk : ¬ n = k := fun he => hk (hn.trans he)
        have hkn : ¬ k = n := fun he => hnk he.symm
        simp [dinsert, dlookup, hk, hn, hnk, hkn, beq_iff_eq, ih]
      · simp [dinsert, dlookup, hk, hn, beq_iff_eq, ih]

theorem dlookup_foldl_insert_none {α β : Type} (f : β → α) (key : β → String)
    (es : List β) (acc : List (String × α)) (n : String)
    (hacc : dlookup acc n = none) (h : ∀ e ∈ es, key e ≠ n) :
    dlookup (es.foldl (fun d e => dinsert d (key e) (f e)) acc) n = none := by
  induction es generalizing acc with
  | nil => simpa using hacc
  | cons e rest ih =>
    simp only [List.foldl]
    refine ih (dinsert acc (key e) (f e)) ?_ (fun e2 he2 => h e2 (by simp [he2]))
    rw [dlookup_dinsert]
    have hne : key e ≠ n := h e (by simp)
    simp [hne, hacc]

/-- Projection of an `Except` result to its success value, `none` when the
call raised. -/
def exceptOk {ε α : Type} : Except ε α → Option α
  | .ok a => some a
  | .error _ => none

/-- C1: for a Firewall whose vsys attribute is a vsys identifier,
`xpath_vsys` returns the device-local vsys prefix with that identifier
substituted, and with vsys set to "shared" the same firewall's
`xpath_vsys` returns exactly "/config/shared"; since `xpath_vsys` reads
only the vsys attribute, switching between the two values changes only
this prefix. -/
theorem xpath_vsys_correct (fw : Firewall) (h : strStartsWith fw.vsys "vsys" = true) :
    fw.xpath_vsys
        = "/config/devices/entry[@name=\x27localhost.localdomain\x27]/vsys/entry[@name=\x27"
            ++ fw.vsys ++ "\x27]"
      ∧ ({ fw with vsys := "shared" } : Firewall).xpath_vsys = "/config/shared" := by
  refine ⟨?_, rfl⟩
  have hne : fw.vsys ≠ "shared" := by
    intro he
    rw [he] at h
    exact absurd h (by decide)
  simp [Firewall.xpath_vsys, hne]

/-- Witness for C1 at the default vsys identifier "vsys1". -/
theorem xpath_vsys_correct_witness :
    (strStartsWith "vsys1" "vsys" = true)
      ∧ (({ vsys := "vsys1" } : Firewall).xpath_vsys
            = "/config/devices/entry[@name=\x27localhost.localdomain\x27]/vsys/entry[@name=\x27"
                ++ "vsys1" ++ "\x27]"
          ∧ ({ ({ vsys := "vsys1" } : Firewall) with vsys := "shared" } : Firewall).xpath_vsys
            = "/config/shared") :=
  ⟨by decide, xpath_vsys_correct { vsys := "vsys1" } (by decide)⟩

/-- C2: `add_address_object` issues exactly one `set` at the firewall's
xpath extended with the address entry segment, whose element is exactly
the ip-netmask element followed by the description element, and issues no
other transport call and raises no error. -/
theorem add_address_object_single_set (fw : Firewall) (name address description : String) :
    (fw.add_address_object name address description).ops
        = [XapiOp.set
            (fw.xpath ++ "/address/entry[@name=\x27" ++ name ++ "\x27]")
            ("<ip-netmask>" ++ address ++ "</ip-netmask><description>"
              ++ description ++ "</description>")]
      ∧ (fw.add_address_object name address description).err = none :=
  ⟨rfl, rfl⟩

/-- C7: `xpath_panorama` raises `err.PanDeviceError` for every Firewall,
whatever its vsys or panorama attributes; it never returns a path. -/
theorem xpath_panorama_always_raises (fw : Firewall) :
    fw.xpath_panorama
      = Except.error (PanErr.panDeviceError
          "Attempt to modify Panorama configuration on non-Panorama device") := rfl

/-- C8: `generate_xapi` builds the Panorama-proxied transport (with the
panorama object's api_key, hostname and port, and this firewall's serial
as the target) exactly when both `panorama` and `serial` are set, and in
every other case delegates to the superclass's direct construction. -/
theorem generate_xapi_proxies_iff (fw : Firewall) :
    (∀ p s, fw.panorama = some p → fw.serial = some s →
        fw.generate_xapi
          = if fw.classify_exceptions then
              Firewall.Xapi.wrapper p.api_key p.hostname p.port fw.timeout (some s)
            else
              Firewall.Xapi.plain p.api_key p.hostname p.port fw.timeout (some s))
      ∧ ((fw.panorama = none ∨ fw.serial = none) →
          fw.generate_xapi = Firewall.Xapi.direct) := by
  constructor
  · intro p s hp hs
    simp [Firewall.generate_xapi, hp, hs]
  · rintro (hp | hs)
    · cases hserial : fw.serial <;> simp [Firewall.generate_xapi, hp, hserial]
    · cases hpano : fw.panorama <;> simp [Firewall.generate_xapi, hpano, hs]

/-- Witness for C8: a firewall with panorama and serial both set is
proxied through Panorama with its serial as the target. -/
theorem generate_xapi_proxies_iff_witness :
    fwProxied.generate_xapi
      = Firewall.Xapi.wrapper (some "LUFRPT1k") (some "panorama.example.net")
          443 120 (some "007200001056") := by
  have h := (generate_xapi_proxies_iff fwProxied).1 panoEx "007200001056" rfl rfl
  simpa [fwProxied, panoEx] using h

/-- C9: when the vsys attribute does not start with "vsys" (in particular
for "shared"), `create` and `delete` return normally, issue no transport
call, raise nothing and leave the state untouched. -/
theorem create_delete_noop (fw : Firewall) (h : strStartsWith fw.vsys "vsys" = false) :
    fw.create = { state := fw } ∧ fw.delete = { state := fw } := by
  constructor <;> simp [Firewall.create, Firewall.delete, h]

/-- Witness for C9 at vsys = "shared". -/
theorem create_delete_noop_witness :
    (strStartsWith "shared" "vsys" = false)
      ∧ (({ vsys := "shared" } : Firewall).create
            = { state := { vsys := "shared" } }
          ∧ ({ vsys := "shared" } : Firewall).delete
            = { state := { vsys := "shared" } }) :=
  ⟨by decide, create_delete_noop { vsys := "shared" } (by decide)⟩

/-- C10: `op` passes the firewall's own vsys as the transport scope except
that "shared" is replaced by "vsys1", and returns the transport's parsed
root element. -/
theorem op_vsys_substitution (fw : Firewall) (cmd : Option String) (cmd_xml : Bool)
    (extra_qs : Option String) (root : XmlElement) :
    fw.op cmd cmd_xml extra_qs root
      = (root,
         [XapiOp.opCmd cmd (if fw.vsys = "shared" then "vsys1" else fw.vsys)
            cmd_xml extra_qs]) := by
  by_cases h : fw.vsys = "shared" <;> simp [Firewall.op, h]

/-- C3 counterexample: a local interface present in the index but absent
from the remote response is gone from the index after a successful
refresh — the index is not kept stale-but-unconfirmed. -/
theorem refresh_interfaces_drops_stale :
    ((dlookup fwStale.interfaces "ethernet1/9").isSome = true)
      ∧ ((exceptOk (fwStale.refresh_interfaces
            (.body (.entries [hwEntryEx]) (.entries [ifEntryEx])))).map
              (fun f => dlookup f.interfaces "ethernet1/9") = some none) :=
  ⟨rfl, rfl⟩

/-- C3 amended: on a successful full refresh (result present, hw and ifnet
containers holding entry lists), the interfaces index is replaced by one
built solely from the remote ifnet entries: any name absent from the
remote entries — whether or not it was in the local index — is absent from
the index after the call. -/
theorem refresh_interfaces_replaces_index (fw : Firewall) (hws : List HwEntry)
    (es : List IfEntry) (n : String) (h : ∀ e ∈ es, e.name ≠ n) :
    (exceptOk (fw.refresh_interfaces (.body (.entries hws) (.entries es)))).map
        (fun f => dlookup f.interfaces n) = some none := by
  simp only [Firewall.refresh_interfaces, Container.entryList, exceptOk, Option.map]
  exact congrArg some (dlookup_foldl_insert_none _ IfEntry.name es [] n rfl h)

/-- Witness for C3 amended: the stale name is dropped at the concrete
refresh response. -/
theorem refresh_interfaces_replaces_index_witness :
    (∀ e ∈ [ifEntryEx], e.name ≠ "ethernet1/9")
      ∧ ((exceptOk (fwStale.refresh_interfaces
            (.body (.entries []) (.entries [ifEntryEx])))).map
              (fun f => dlookup f.interfaces "ethernet1/9") = some none) :=
  ⟨by simp [ifEntryEx],
   refresh_interfaces_replaces_index fwStale [] [ifEntryEx] "ethernet1/9"
     (by simp [ifEntryEx])⟩

/-- C4 counterexample: a remote response whose result contains neither the
hw nor the ifnet container makes refresh_interfaces return normally with
the interfaces index set to empty, instead of raising. -/
theorem refresh_interfaces_empty_containers_return :
    (exceptOk (fwStale.refresh_interfaces (.body .absent .absent))).map
        Firewall.interfaces = some [] := rfl

/-- C4 amended: refresh_interfaces raises exactly when the
response/result envelope is missing or the extracted result is empty; a
result whose hw or ifnet container is null makes it return normally with
the index unchanged, and a result merely lacking those containers makes
it return normally with the index rebuilt from an empty entry list. -/
theorem refresh_interfaces_error_iff (fw : Firewall) (resp : RefreshResult) :
    (exceptOk (fw.refresh_interfaces resp) = none
        ↔ resp = RefreshResult.missing ∨ resp = RefreshResult.empty)
      ∧ (∀ ifc, fw.refresh_interfaces (.body .nullValue ifc) = .ok fw)
      ∧ (∀ hwc, fw.refresh_interfaces (.body hwc .nullValue) = .ok fw) := by
  refine ⟨?_, fun ifc => rfl, fun hwc => by cases hwc <;> rfl⟩
  cases resp with
  | missing => simp [Firewall.refresh_interfaces, exceptOk]
  | empty => simp [Firewall.refresh_interfaces, exceptOk]
  | body hwc ifc =>
      cases hwc <;> cases ifc <;>
        simp [Firewall.refresh_interfaces, exceptOk, Container.entryList]

/-- C5 counterexample: calling add_interface with a non-Interface argument
on a firewall whose config-changed flag is clear raises TypeError but
leaves the flag set — the state is not exactly as it was before the call. -/
theorem add_interface_flag_mutated :
    (fwFlagClear.config_changed = false)
      ∧ ((fwFlagClear.add_interface Firewall.IfaceArg.notIface true).err
            = some (PanErr.typeError "set_interface argument must be of type Interface"))
      ∧ ((fwFlagClear.add_interface Firewall.IfaceArg.notIface true).state.config_changed
            = true) :=
  ⟨rfl, rfl, rfl⟩

/-- C5 amended: add_interface with a non-Interface argument raises
TypeError, issues no transport call, and leaves every attribute of the
firewall unchanged except the config-changed flag, which is set before
the type check runs. -/
theorem add_interface_typeerror_state (fw : Firewall) (applyFlag : Bool) :
    ((fw.add_interface Firewall.IfaceArg.notIface applyFlag).err
        = some (PanErr.typeError "set_interface argument must be of type Interface"))
      ∧ ((fw.add_interface Firewall.IfaceArg.notIface applyFlag).ops = [])
      ∧ ((fw.add_interface Firewall.IfaceArg.notIface applyFlag).state
          = { fw with config_changed := true }) :=
  ⟨rfl, rfl, rfl⟩

/-- C6: deleting a subinterface with delete_empty_parent=True when the
parent has no subinterfaces left pops the subinterface's key from the
index twice and never the parent's key, so the parent's name is still in
the index after the call even though the parent itself was deleted
remotely. -/
theorem delete_interface_keeps_empty_parent :
    ((Firewall.delete_interface fwWithSub subIfaceEx true true).state.interfaces.map
          Prod.fst = ["ethernet1/1"])
      ∧ ((Firewall.delete_interface fwWithSub subIfaceEx true true).ops
          = [XapiOp.ifaceDelete "ethernet1/1"]) :=
  ⟨rfl, rfl⟩

end Pandevice
